import Mathlib

/-!
Shallow embedding of the santa structured-logging library core
(sampler, buffered syncer, spin lock, network reconnect state,
logger output pipeline), with theorems checking the specification
claims against the embedded code.

Machine integers are modelled as Nat/Int with explicit reduction
modulo 2^64 where Go uint64 wraparound matters. Go byte strings are
modelled as lists of byte values (Nat below 256). A Go panic
(integer divide by zero) is modelled by an Option-valued function
returning none.
-/

namespace Santa

/-- Log level, Go `type Level uint8` with Debug=0 .. Fatal=4. -/
abbrev Level := Nat

/-- Go `func (l Level) Enabled(level Level) bool { return l <= level }`. -/
def Level.enabled (l level : Level) : Bool := l ≤ level

/-- Go `LevelSpan { Start, End Level }`. The Go field `End` is named
`stop` here because `end` is a Lean keyword. -/
structure LevelSpan where
  start : Level
  stop : Level
deriving DecidableEq

/-- Go `func (l LevelSpan) Contains(level Level) bool
{ return level >= l.Start && level <= l.End }`. -/
def LevelSpan.contains (l : LevelSpan) (level : Level) : Bool :=
  level ≥ l.start && level ≤ l.stop

/-- Log message as seen by the sampler: a message either implements
the TextSampleParser interface, exposing a sample text (a Go string,
i.e. a byte sequence), or it does not (`sampleText = none`). -/
structure Message where
  sampleText : Option (List Nat)
deriving DecidableEq

/-- Go `EntrySourceLocation { Proc uintptr; File string; Line int;
Parsed bool }`. -/
structure EntrySourceLocation where
  proc : Nat
  file : String
  line : Int
  parsed : Bool
deriving DecidableEq

/-- Go `Entry` as used by `Logger.output`: Time is modelled by its
UnixNano value. The `labels` field is referenced by the logger
snapshot in src/logger.go (`entry.Labels = l.lables`); the struct
snapshot in src/entry.go predates it, so the field follows the spec
data model (Entry = time, level, message handle, name,
source-location, labels), with labels kept opaque as strings. -/
structure Entry where
  time : Int
  level : Level
  message : Message
  sourceLocation : EntrySourceLocation
  name : String
  labels : List String
deriving DecidableEq

/-! ## TextSampler (sampler.go snapshot in src/unnamed/part_003) -/

/-- One slot of the sampler counter array, Go `textSamplerCounter
{ count uint64; after int64 }`. -/
structure TextSamplerCounter where
  count : Nat
  after : Int
deriving DecidableEq

/-- Go `TextSampler { span LevelSpan; tick int64; first, thereafter
uint64; counters []textSamplerCounter }`. -/
structure TextSampler where
  span : LevelSpan
  tick : Int
  first : Nat
  thereafter : Nat
  counters : List TextSamplerCounter
deriving DecidableEq

/-- Go uint64 wraparound addition of a (possibly negative) delta, as
performed by `atomic.AddUint64(&x, delta)`. -/
def addUint64 (count : Nat) (delta : Int) : Nat :=
  (((count : Int) + delta).emod (2 ^ 64)).toNat

/-- Go `func (*TextSampler) hash64(text string) uint64`: FNV64-A over
the bytes of the text, with uint64 wraparound multiplication. -/
def TextSampler.hash64 (text : List Nat) : Nat :=
  text.foldl
    (fun result b => (Nat.xor result (b % 256) * 1099511628211) % 2 ^ 64)
    14695981039346656037

/-- Atomic mutation performed on a sampler counter slot, recorded so
that theorems can speak about which operations a call performs.
`storeCount` is never emitted by the embedded code; it exists so that
the claim that the reset uses an add rather than a plain store is
expressible. -/
inductive CounterOp where
  | casAfter (old new : Int) : CounterOp
  | addCount (delta : Int) : CounterOp
  | storeCount (value : Nat) : CounterOp
deriving DecidableEq

/-- Result of one `Sample` call: the boolean decision, the sampler
state after the call, and the trace of counter mutations. -/
structure SampleResult where
  sampled : Bool
  state : TextSampler
  ops : List CounterOp
deriving DecidableEq

/-- Go `func (s *TextSampler) Sample(entry *Entry) bool`, embedded as
a state-passing function. In this sequential model the CAS on the
reset time always succeeds. The value none models a Go runtime panic:
`hash % uint64(len(s.counters))` divides by zero when the counter
array is empty, and `(count - s.first) % s.thereafter` divides by
zero when `thereafter` is 0 and the guard `count > s.first` held. -/
def TextSampler.sample (s : TextSampler) (entry : Entry) :
    Option SampleResult :=
  if !(s.span.contains entry.level) then
    some ⟨true, s, []⟩
  else
    match entry.message.sampleText with
    | none => some ⟨true, s, []⟩
    | some text =>
      if s.counters.length = 0 then
        none
      else
        let index := TextSampler.hash64 text % s.counters.length
        let slot := s.counters.getD index ⟨0, 0⟩
        let count := slot.count
        let clock := entry.time
        let after := slot.after
        if after ≤ clock then
          let slot1 : TextSamplerCounter := ⟨count, clock + s.tick⟩
          let casOp := CounterOp.casAfter after (clock + s.tick)
          if count > 0 then
            let slot2 : TextSamplerCounter :=
              ⟨addUint64 count (1 - (count : Int)), clock + s.tick⟩
            some ⟨true, { s with counters := s.counters.set index slot2 },
              [casOp, CounterOp.addCount (1 - (count : Int))]⟩
          else
            some ⟨true, { s with counters := s.counters.set index slot1 },
              [casOp]⟩
        else
          let c := addUint64 count 1
          let s2 : TextSampler :=
            { s with counters := s.counters.set index ⟨c, after⟩ }
          if c > s.first then
            if s.thereafter = 0 then
              none
            else if (c - s.first) % s.thereafter ≠ 0 then
              some ⟨false, s2, [CounterOp.addCount 1]⟩
            else
              some ⟨true, s2, [CounterOp.addCount 1]⟩
          else
            some ⟨true, s2, [CounterOp.addCount 1]⟩

/-- Sampler built by `TextSamplerOption.Build` for the configuration
`first=100, thereafter=100, tick=1s` of the claim, with the default
span Info–Warning and a one-slot counter array (`make` zero-fills the
slots). Tick is in nanoseconds. -/
def sequenceSampler : TextSampler :=
  { span := ⟨1, 2⟩
    tick := 1000000000
    first := 100
    thereafter := 100
    counters := [⟨0, 0⟩] }

/-- Entry carrying an identical text message at a fixed instant, at
level Info (inside the configured span). -/
def sequenceEntry : Entry :=
  { time := 0
    level := 1
    message := ⟨some [104, 105]⟩
    sourceLocation := ⟨0, "", 0, false⟩
    name := ""
    labels := [] }

/-- Boolean decisions of the first n Sample calls on the given
sampler state for the fixed identical entry, oldest first. A panic
(none) stops the run; it does not occur for this configuration. -/
def sampleRun (s : TextSampler) : Nat → List Bool
  | 0 => []
  | n + 1 =>
    match s.sample sequenceEntry with
    | none => []
    | some r => r.sampled :: sampleRun r.state n

/-- Sampler configured with `first=0, thereafter=0` (Build performs
no validity check on option values). -/
def panicSampler : TextSampler :=
  { span := ⟨1, 2⟩
    tick := 1000000000
    first := 0
    thereafter := 0
    counters := [⟨0, 0⟩] }

/-! ## StandardSyncer (syncer.go snapshot in src/unnamed/part_000) -/

/-- Go error value, kept opaque as its message string. -/
abbrev GoErr := String

/-- Behaviour of the underlying io.Writer: given the bytes handed to
one Write call, it reports the count actually written and an optional
error. -/
abbrev WriterFn := List Nat → Nat × Option GoErr

/-- Go `StandardSyncer { writer io.Writer; buffer []byte;
capacity int; mutex *SpinLock }`. The cache is `some bytes` when the
internal cache is enabled (Go non-nil buffer slice) and none when
disabled; `hasMutex` records whether the mutex pointer is non-nil.
The writer itself is passed to the operations as a parameter. -/
structure StandardSyncer where
  cache : Option (List Nat)
  capacity : Int
  hasMutex : Bool
deriving DecidableEq

/-- Go `func (s *StandardSyncer) flush() (int, error)` acting on the
cache contents: write the cache out; on error keep the bytes from the
reported written count onward (the code guards with `size > 0`, but
dropping zero bytes is the identity); on success empty the cache.
Returns ((written count, error), remaining cache). -/
def StandardSyncer.flush (w : WriterFn) (cache : List Nat) :
    (Nat × Option GoErr) × List Nat :=
  let r := w cache
  match r.2 with
  | some err =>
    if r.1 > 0 then ((r.1, some err), cache.drop r.1)
    else ((r.1, some err), cache)
  | none => ((r.1, none), [])

/-- Go `func (s *StandardSyncer) Write(buffer []byte) (int, error)`,
with the mutex lock/unlock elided (sequential model). Returns
((written count, error), syncer state after the call). -/
def StandardSyncer.write (w : WriterFn) (s : StandardSyncer)
    (buffer : List Nat) : (Nat × Option GoErr) × StandardSyncer :=
  match s.cache with
  | some cache =>
    if ((cache.length : Int) + buffer.length) ≥ s.capacity then
      let fr := StandardSyncer.flush w cache
      match fr.1.2 with
      | some err => ((0, some err), { s with cache := some fr.2 })
      | none =>
        ((buffer.length, none), { s with cache := some (fr.2 ++ buffer) })
    else
      ((buffer.length, none), { s with cache := some (cache ++ buffer) })
  | none =>
    let r := w buffer
    ((r.1, r.2), s)

/-- Go `StandardSyncerOption { CacheCapacity int; Writer io.Writer;
DisableMutex bool }`, writer elided. -/
structure StandardSyncerOption where
  cacheCapacity : Int
  disableMutex : Bool
deriving DecidableEq

/-- Go `func (o *StandardSyncerOption) Build() (*StandardSyncer, error)`
from the src/unnamed/part_000 snapshot: capacity clamping and cache
allocation happen only inside the `if !o.DisableMutex` block; with the
mutex disabled the syncer gets no cache and the capacity value is kept
as given. Build never returns an error. -/
def StandardSyncerOption.build (o : StandardSyncerOption) : StandardSyncer :=
  if !o.disableMutex then
    let cap := if o.cacheCapacity < 1024 ∧ o.cacheCapacity > 0
      then 1024 else o.cacheCapacity
    { cache := if cap > 0 then some [] else none
      capacity := cap
      hasMutex := true }
  else
    { cache := none, capacity := o.cacheCapacity, hasMutex := false }

/-! ## SpinLock (src/locker.go and the locker snapshot inside
src/encoder.go) -/

/-- Lock status word, Go `status int32`: 0 unlocked, 1 locked,
2 suspended. -/
abbrev LockStatus := Int

/-- Go `func (l *SpinLock) TryLock() bool`:
`atomic.CompareAndSwapInt32(&l.status, 0, 1)`. Returns the boolean
result and the status word after the call. -/
def SpinLock.tryLock (s : LockStatus) : Bool × LockStatus :=
  if s = 0 then (true, 1) else (false, s)

/-- CAS Unlocked→Suspended performed by `LockAndSuspend`. -/
def SpinLock.suspendCas (s : LockStatus) : Bool × LockStatus :=
  if s = 0 then (true, 2) else (false, s)

/-- CAS Suspended→Unlocked performed by `UnlockAndResume`. -/
def SpinLock.resumeCas (s : LockStatus) : Bool × LockStatus :=
  if s = 2 then (true, 0) else (false, s)

/-- Go `func (l *SpinLock) Unlock()`: unconditional store of 0. -/
def SpinLock.unlockStore (_ : LockStatus) : LockStatus := 0

/-- One atomic transition of the spin lock status word, each
constructor matching one atomic instruction in the Go code. -/
inductive SpinStep : LockStatus → LockStatus → Prop where
  | tryLockSucc : SpinStep 0 1
  | tryLockFail (s : LockStatus) (h : s ≠ 0) : SpinStep s s
  | lockCasSucc : SpinStep 0 1
  | lockCasFail (s : LockStatus) (h : s ≠ 0) : SpinStep s s
  | unlock (s : LockStatus) : SpinStep s 0
  | suspendCasSucc : SpinStep 0 2
  | suspendCasFail (s : LockStatus) (h : s ≠ 0) : SpinStep s s
  | resumeCasSucc : SpinStep 2 0
  | resumeCasFail (s : LockStatus) (h : s ≠ 2) : SpinStep s s

/-- Status words reachable from the freshly constructed lock
(`NewSpinLock` sets status to 0). -/
def SpinReachable (s : LockStatus) : Prop :=
  Relation.ReflTransGen SpinStep 0 s

/-- Scheduling-relevant action taken by one iteration of the
`SpinLock.Lock` retry loop. -/
inductive LockAction where
  | casAttempt (success : Bool) : LockAction
  | gosched : LockAction
  | condCheck (parked : Bool) : LockAction
  | sleepMs (ms : Nat) : LockAction
deriving DecidableEq

/-- One iteration of the retry loop of `func (l *SpinLock) Lock()`
from the locker snapshot inside src/encoder.go, as the list of
actions it performs given the current status word and the iteration
counter: CAS first; on failure, if `count % 100 != 0` yield the
scheduler and retry; otherwise take the condition-variable mutex and
park when the status is Suspended, then sleep 10ms when
`count >= 10000`. The src/locker.go snapshot is identical except that
it lacks the sleep branch. -/
def SpinLock.lockIteration (status : LockStatus) (count : Nat) :
    List LockAction :=
  if status = 0 then [LockAction.casAttempt true]
  else
    LockAction.casAttempt false ::
      (if count % 100 ≠ 0 then [LockAction.gosched]
       else
         LockAction.condCheck (status = 2) ::
           (if count ≥ 10000 then [LockAction.sleepMs 10] else []))

/-! ## NetworkSyncer reconnect state (src/unnamed/part_000) -/

/-- Abstract state of one NetworkSyncer with respect to reconnection:
the `disconnected` int32 flag (as a Bool), the number of reconnect
tasks currently running, and the number of reconnect task sequences
spawned so far. -/
structure NetState where
  disconnected : Bool
  inflight : Nat
  attempts : Nat
deriving DecidableEq

/-- Transitions of the reconnect state, each matching the Go code:
a Write failure on a closed connection performs
`CompareAndSwapInt32(&s.disconnected, 0, 1)` and spawns the reconnect
task only when the CAS wins; the reconnect task finishes either by a
successful dial, performing `CompareAndSwapInt32(&s.disconnected, 1, 0)`,
or by shutdown cancellation, which deliberately leaves the flag set. -/
inductive NetStep : NetState → NetState → Prop where
  | writeFailWin (s : NetState) (h : s.disconnected = false) :
      NetStep s ⟨true, s.inflight + 1, s.attempts + 1⟩
  | writeFailLose (s : NetState) (h : s.disconnected = true) : NetStep s s
  | reconnectSucc (s : NetState) (h : 1 ≤ s.inflight) :
      NetStep s ⟨false, s.inflight - 1, s.attempts⟩
  | reconnectCancel (s : NetState) (h : 1 ≤ s.inflight) :
      NetStep s ⟨s.disconnected, s.inflight - 1, s.attempts⟩

/-- Reconnect states reachable from a freshly built NetworkSyncer:
connected, no task running. -/
def NetReachable (s : NetState) : Prop :=
  Relation.ReflTransGen NetStep ⟨false, 0, 0⟩ s

/-! ## Logger.output (src/logger.go) -/

/-- A registered hook, Go `Hook.Print(entry *Entry) error`: it may
mutate the entry and may return an error. -/
abbrev HookFn := Entry → Entry × Option GoErr

/-- A registered exporter, Go `Exporter.Export(entry *Entry) error`. -/
abbrev ExporterFn := Entry → Option GoErr

/-- Go `Logger` fields used by output; sampler, hooks and exporters
are kept as abstract functions behind their interfaces. -/
structure Logger where
  name : String
  level : Level
  sampler : Option (Entry → Bool)
  hooks : List HookFn
  exporters : List ExporterFn
  labels : List String
  addSource : Bool

/-- Run the hook chain from index i: stop at the first hook returning
an error. Returns (entry after the hooks that ran, first error if
any, indices of the hooks invoked in order). -/
def runHooks : List HookFn → Entry → Nat → Entry × Option GoErr × List Nat
  | [], e, _ => (e, none, [])
  | h :: rest, e, i =>
    let r := h e
    match r.2 with
    | some err => (r.1, some err, [i])
    | none =>
      let rr := runHooks rest r.1 (i + 1)
      (rr.1, rr.2.1, i :: rr.2.2)

/-- Run the exporter chain from index i: stop at the first exporter
returning an error. Returns (first error if any, indices invoked). -/
def runExporters : List ExporterFn → Entry → Nat → Option GoErr × List Nat
  | [], _, _ => (none, [])
  | ex :: rest, e, i =>
    match ex e with
    | some err => (some err, [i])
    | none =>
      let rr := runExporters rest e (i + 1)
      (rr.1, i :: rr.2)

/-- Observable outcome of one `Logger.output` call: the returned
error, the hook and exporter indices invoked, whether the pooled
entry was released, and the entry value as the hook chain first
observed it (none when the call returned before the hook stage). -/
structure OutputResult where
  err : Option GoErr
  hooksRun : List Nat
  exportersRun : List Nat
  freed : Bool
  entryAtHooks : Option Entry

/-- Field population performed by `Logger.output` on the pooled entry
(lines 84–98 of src/logger.go): Name, Level, Time, Message and Labels
are overwritten; SourceLocation is overwritten only when addSource is
set, from the runtime.Caller result. -/
def Logger.populate (l : Logger) (level : Level) (message : Message)
    (now : Int) (poolEntry : Entry) : Entry :=
  { poolEntry with
    name := l.name
    level := level
    time := now
    message := message
    labels := l.labels }

/-- Entry value as it stands when the hook chain starts: the
populated pooled entry, with the caller source location written into
it only when addSource is set (lines 95–98 of src/logger.go). -/
def Logger.entryAtHookStage (l : Logger) (level : Level)
    (message : Message) (now : Int) (poolEntry : Entry)
    (caller : EntrySourceLocation) : Entry :=
  let e0 := l.populate level message now poolEntry
  if l.addSource then { e0 with sourceLocation := caller } else e0

/-- Go `func (l *Logger) output(level Level, message Message) error`,
embedded with the ambient inputs made explicit: the current time, the
(possibly dirty) entry handed out by the entry pool, and the caller
source location that runtime.Caller would report. -/
def Logger.output (l : Logger) (level : Level) (message : Message)
    (now : Int) (poolEntry : Entry) (caller : EntrySourceLocation) :
    OutputResult :=
  if !(l.level.enabled level) then ⟨none, [], [], false, none⟩
  else if l.exporters.length = 0 then ⟨none, [], [], false, none⟩
  else
    let e0 := l.populate level message now poolEntry
    if (match l.sampler with
        | some f => !(f e0)
        | none => false) then
      ⟨none, [], [], true, none⟩
    else
      let e1 := l.entryAtHookStage level message now poolEntry caller
      let hr := runHooks l.hooks e1 0
      match hr.2.1 with
      | some err => ⟨some err, hr.2.2, [], true, some e1⟩
      | none =>
        let er := runExporters l.exporters hr.1 0
        ⟨er.1, hr.2.2, er.2, true, some e1⟩

/-- Hook that accepts the entry unchanged. -/
def okHook : HookFn := fun e => (e, none)

/-- Hook that rejects every entry with a fixed error. -/
def failingHook : HookFn := fun e => (e, some "hookfail")

/-- Exporter that fails on every entry; it serves to observe that it
is never invoked after a hook error. -/
def boomExporter : ExporterFn := fun _ => some "export"

/-- Concrete logger used by witnesses: no sampler, three hooks with
the failing one in the middle, one exporter, no source capture. -/
def witLogger : Logger :=
  { name := "w"
    level := 0
    sampler := none
    hooks := [okHook, failingHook, okHook]
    exporters := [boomExporter]
    labels := ["k=v"]
    addSource := false }

/-- Dirty pooled entry: the pool hands entries back without cleaning,
so every field still holds a value from an earlier call. -/
def dirtyEntry : Entry :=
  { time := 77
    level := 4
    message := ⟨some [120]⟩
    sourceLocation := ⟨99, "old.go", 7, true⟩
    name := "stale"
    labels := ["old"] }

/-! ## Theorems -/

/-- Claim C1, counterexample: with first=100, thereafter=100, tick=1s
and 300 Sample calls for an identical in-span message within one
tick, the code returns true on call 101 (the claim says calls
101–199 return false) and false on calls 200 and 300 (the claim says
they return true). The shift comes from call 1 taking the
counter-reset path, which returns true without incrementing. -/
theorem C1_sequence_counterexample :
    (sampleRun sequenceSampler 300).getD 100 false = true ∧
    (sampleRun sequenceSampler 300).getD 199 false = false ∧
    (sampleRun sequenceSampler 300).getD 299 false = false := by
  decide

set_option maxRecDepth 40000 in
/-- Claim C1, amended: call 1 takes the reset path and returns true
without incrementing; every later call k has post-increment count
c = k−1 and returns true iff c ≤ 100 or (c−100) mod 100 = 0 —
concretely calls 1–101 true, 102–200 false, 201 true, 202–300
false. -/
theorem C1_sequence_amended :
    sampleRun sequenceSampler 300 =
      (List.range 300).map
        (fun i => decide (i ≤ 100 ∨ (i - 100) % 100 = 0)) := by
  decide

/-- Claim C9, counterexample: with thereafter = 0 (and first = 0),
the second Sample call for an in-span text entry reaches the modulo
by thereafter and the code panics with a division by zero (modelled
as none), so Sample is not total over all unsigned configurations. -/
theorem C9_total_counterexample :
    (TextSampler.sample panicSampler sequenceEntry).map
      (fun r => TextSampler.sample r.state sequenceEntry) =
      some none := by
  decide

/-- Claim C9, amended: for every sampler whose counter array is
nonempty and whose thereafter threshold is nonzero, and for every
entry, Sample returns a boolean decision and never fails; the only
failing branches are the modulo by the counter count and the modulo
by thereafter. -/
theorem C9_sample_total (s : TextSampler) (entry : Entry)
    (hth : s.thereafter ≠ 0) (hc : s.counters.length ≠ 0) :
    ∃ r : SampleResult, TextSampler.sample s entry = some r := by
  unfold TextSampler.sample
  split
  · exact ⟨_, rfl⟩
  split
  · exact ⟨_, rfl⟩
  dsimp only
  split
  · split
    · exact ⟨_, rfl⟩
    · exact ⟨_, rfl⟩
  · split
    · split
      · exact ⟨_, rfl⟩
      · exact ⟨_, rfl⟩
    · exact ⟨_, rfl⟩

/-- Claim C9, witness for the amended theorem at a concrete sampler
and entry. -/
theorem C9_sample_total_witness :
    sequenceSampler.thereafter ≠ 0 ∧
    sequenceSampler.counters.length ≠ 0 ∧
    ∃ r : SampleResult,
      TextSampler.sample sequenceSampler sequenceEntry = some r :=
  ⟨by decide, by decide,
    C9_sample_total sequenceSampler sequenceEntry (by decide) (by decide)⟩

/-- Claim C6: when the entry level is inside the span, the message
has a text form, and the read reset time is due (after ≤ now), the
call performs exactly one CAS advancing the reset time from the read
value to now + tick, returns true, performs no increment and no
plain store, and when the read count was positive adjusts it down to
exactly 1 via an atomic add of 1 − oldCount. -/
theorem C6_reset_branch (s : TextSampler) (entry : Entry)
    (text : List Nat)
    (hspan : s.span.contains entry.level = true)
    (htext : entry.message.sampleText = some text)
    (hlen : s.counters.length ≠ 0)
    (hreset : (s.counters.getD
        (TextSampler.hash64 text % s.counters.length) ⟨0, 0⟩).after
      ≤ entry.time) :
    ∃ r : SampleResult, TextSampler.sample s entry = some r ∧
      r.sampled = true ∧
      r.ops = CounterOp.casAfter
          (s.counters.getD
            (TextSampler.hash64 text % s.counters.length) ⟨0, 0⟩).after
          (entry.time + s.tick) ::
        (if 0 < (s.counters.getD
            (TextSampler.hash64 text % s.counters.length) ⟨0, 0⟩).count
         then [CounterOp.addCount (1 -
           ((s.counters.getD
             (TextSampler.hash64 text % s.counters.length) ⟨0, 0⟩).count
             : Int))]
         else []) ∧
      (∀ v : Nat, CounterOp.storeCount v ∉ r.ops) ∧
      CounterOp.addCount 1 ∉ r.ops ∧
      (r.state.counters.getD
          (TextSampler.hash64 text % s.counters.length) ⟨0, 0⟩).count =
        (if 0 < (s.counters.getD
            (TextSampler.hash64 text % s.counters.length) ⟨0, 0⟩).count
         then 1
         else (s.counters.getD
            (TextSampler.hash64 text % s.counters.length) ⟨0, 0⟩).count) := by
  have hpos : 0 < s.counters.length := Nat.pos_of_ne_zero hlen
  have hidx : TextSampler.hash64 text % s.counters.length <
      s.counters.length := Nat.mod_lt _ hpos
  have hset : ∀ v : TextSamplerCounter,
      (s.counters.set (TextSampler.hash64 text % s.counters.length) v).getD
        (TextSampler.hash64 text % s.counters.length) ⟨0, 0⟩ = v := by
    intro v
    rw [List.getD_eq_getElem?_getD, List.getElem?_set_eq_of_lt v hidx]
    rfl
  unfold TextSampler.sample
  rw [htext]
  simp only [hspan, Bool.not_true, Bool.false_eq_true, if_false,
    if_neg hlen, if_pos hreset]
  by_cases hcount :
      0 < (s.counters.getD
        (TextSampler.hash64 text % s.counters.length) ⟨0, 0⟩).count
  · rw [if_pos hcount]
    refine ⟨_, rfl, rfl, by rw [if_pos hcount], ?_, ?_, ?_⟩
    · intro v hv
      simp at hv
    · intro hv
      rcases List.mem_cons.mp hv with h1 | hv
      · exact CounterOp.noConfusion h1
      rcases List.mem_cons.mp hv with h1 | hv
      · have h2 : (1 : Int) = 1 -
            ((s.counters.getD
              (TextSampler.hash64 text % s.counters.length)
              ⟨0, 0⟩).count : Int) := by
          injection h1
        omega
      · cases hv
    · rw [if_pos hcount]
      simp only [hset]
      show addUint64 _ _ = 1
      unfold addUint64
      have h1 : ((s.counters.getD
          (TextSampler.hash64 text % s.counters.length)
          ⟨0, 0⟩).count : Int) +
          (1 - ((s.counters.getD
            (TextSampler.hash64 text % s.counters.length)
            ⟨0, 0⟩).count : Int)) = 1 := by ring
      rw [h1]
      decide
  · rw [if_neg hcount]
    refine ⟨_, rfl, rfl, by rw [if_neg hcount], ?_, ?_, ?_⟩
    · intro v hv
      simp at hv
    · intro hv
      simp at hv
    · rw [if_neg hcount]
      simp only [hset]

/-- Claim C6, witness: a fresh one-slot sampler at time 0 is due for
a reset and the call returns true through the reset branch. -/
theorem C6_reset_branch_witness :
    (sequenceSampler.counters.getD
      (TextSampler.hash64 [104, 105] % sequenceSampler.counters.length)
      ⟨0, 0⟩).after ≤ sequenceEntry.time ∧
    ∃ r : SampleResult,
      TextSampler.sample sequenceSampler sequenceEntry = some r ∧
      r.sampled = true := by
  refine ⟨by decide, ?_⟩
  obtain ⟨r, h1, h2, _⟩ := C6_reset_branch sequenceSampler sequenceEntry
    [104, 105] (by decide) (by decide) (by decide) (by decide)
  exact ⟨r, h1, h2⟩

/-- Claim C5: the spin lock state machine keeps the status word in
{Unlocked, Locked, Suspended} in every reachable state, TryLock
succeeds exactly from Unlocked (moving to Locked), and while the
status is Suspended (as after a successful LockAndSuspend and before
UnlockAndResume) every TryLock returns false and leaves the status
unchanged, while UnlockAndResume releases it. -/
theorem C5_spinlock_state_machine :
    (∀ s : LockStatus, SpinReachable s → s = 0 ∨ s = 1 ∨ s = 2) ∧
    (∀ s : LockStatus, (SpinLock.tryLock s).1 = true ↔ s = 0) ∧
    (SpinLock.suspendCas 0).2 = 2 ∧
    (∀ s : LockStatus, s = 2 →
      (SpinLock.tryLock s).1 = false ∧ (SpinLock.tryLock s).2 = s ∧
      (SpinLock.resumeCas s).1 = true ∧ (SpinLock.resumeCas s).2 = 0) := by
  refine ⟨?_, ?_, rfl, ?_⟩
  · intro s h
    induction h with
    | refl => exact Or.inl rfl
    | tail _ step ih =>
      cases step with
      | tryLockSucc => exact Or.inr (Or.inl rfl)
      | tryLockFail s h => exact ih
      | lockCasSucc => exact Or.inr (Or.inl rfl)
      | lockCasFail s h => exact ih
      | unlock s => exact Or.inl rfl
      | suspendCasSucc => exact Or.inr (Or.inr rfl)
      | suspendCasFail s h => exact ih
      | resumeCasSucc => exact Or.inl rfl
      | resumeCasFail s h => exact ih
  · intro s
    unfold SpinLock.tryLock
    constructor
    · intro h
      by_contra hne
      simp [hne] at h
    · intro h
      simp [h]
  · intro s h
    subst h
    refine ⟨rfl, rfl, rfl, rfl⟩

/-- Claim C5, witness: the suspended status 2 is reachable (by a
successful LockAndSuspend CAS from the fresh lock) and there TryLock
fails without changing the status. -/
theorem C5_spinlock_witness :
    ((2 : LockStatus) = 0 ∨ (2 : LockStatus) = 1 ∨ (2 : LockStatus) = 2) ∧
    ((SpinLock.tryLock 2).1 = false ∧ (SpinLock.tryLock 2).2 = 2 ∧
      (SpinLock.resumeCas 2).1 = true ∧ (SpinLock.resumeCas 2).2 = 0) :=
  ⟨C5_spinlock_state_machine.1 2
      (Relation.ReflTransGen.single SpinStep.suspendCasSucc),
    C5_spinlock_state_machine.2.2.2 2 rfl⟩

/-- Claim C8, counterexample: on the 100th failed attempt the loop
performs no scheduler yield (it takes the condition-variable branch
instead), while it does yield on attempt 1 — so the yield happens on
the attempts that are not multiples of 100, not after every 100
failed attempts as claimed. -/
theorem C8_yield_counterexample :
    LockAction.gosched ∉ SpinLock.lockIteration 1 100 ∧
    LockAction.gosched ∈ SpinLock.lockIteration 1 1 := by
  decide

/-- Claim C8, amended: every failed CAS attempt whose counter is not
a multiple of 100 is followed by a scheduler yield and an immediate
retry; on every 100th failed attempt the caller instead takes the
condition-variable mutex, parking until woken exactly when the
holder is Suspended, and additionally sleeps about 10ms in those
rounds once the attempt count reaches 10,000 (encoder.go snapshot;
the locker.go snapshot omits the sleep). -/
theorem C8_lock_iteration (s : LockStatus) (count : Nat) (h : s ≠ 0) :
    (count % 100 ≠ 0 →
      SpinLock.lockIteration s count =
        [LockAction.casAttempt false, LockAction.gosched]) ∧
    (count % 100 = 0 →
      SpinLock.lockIteration s count =
        LockAction.casAttempt false ::
          LockAction.condCheck (s = 2) ::
          (if count ≥ 10000 then [LockAction.sleepMs 10] else [])) := by
  unfold SpinLock.lockIteration
  constructor <;> intro hc <;> simp [h, hc]

/-- Claim C8, witness for the amended theorem: a suspended holder and
a 200th failed attempt park the caller without a yield and without a
sleep. -/
theorem C8_lock_iteration_witness :
    SpinLock.lockIteration 2 200 =
      [LockAction.casAttempt false, LockAction.condCheck true] := by
  have h := (C8_lock_iteration 2 200 (by decide)).2 (by decide)
  simpa using h

/-- Claim C2: with the cache enabled, a Write whose input would bring
the cache to or past capacity flushes first; a failed flush keeps the
unwritten remainder in the cache, appends nothing, and returns 0 with
the error; otherwise the input is appended and Write returns the
input length with no error. -/
theorem C2_write_cache (w : WriterFn) (s : StandardSyncer)
    (cache buffer : List Nat) (hcache : s.cache = some cache) :
    (((cache.length : Int) + buffer.length) ≥ s.capacity →
      ((w cache).2 = none →
        StandardSyncer.write w s buffer =
          ((buffer.length, none), { s with cache := some buffer })) ∧
      (∀ err : GoErr, (w cache).2 = some err →
        StandardSyncer.write w s buffer =
          ((0, some err),
            { s with cache := some (cache.drop (w cache).1) }))) ∧
    (((cache.length : Int) + buffer.length) < s.capacity →
      StandardSyncer.write w s buffer =
        ((buffer.length, none), { s with cache := some (cache ++ buffer) })) := by
  constructor
  · intro hge
    constructor
    · intro hw
      unfold StandardSyncer.write StandardSyncer.flush
      rw [hcache]
      dsimp only
      rw [if_pos hge, hw]
      dsimp only
      rw [List.nil_append]
    · intro err hw
      unfold StandardSyncer.write StandardSyncer.flush
      rw [hcache]
      dsimp only
      rw [if_pos hge, hw]
      dsimp only
      by_cases hn : (w cache).1 > 0
      · rw [if_pos hn]
      · rw [if_neg hn]
        have h0 : (w cache).1 = 0 := by omega
        rw [h0, List.drop_zero]
  · intro hlt
    unfold StandardSyncer.write
    rw [hcache]
    dsimp only
    rw [if_neg (not_le.mpr hlt)]

/-- Claim C2, witness: a cache of three bytes, capacity 4 and a
one-byte input force a flush; the writer reports one byte written and
an error, so Write returns (0, error) and the cache keeps the two
unwritten bytes without the new input. -/
theorem C2_write_cache_witness :
    StandardSyncer.write (fun _ => (1, some "boom"))
      ⟨some [1, 2, 3], 4, true⟩ [9] =
      ((0, some "boom"), ⟨some [2, 3], 4, true⟩) := by
  have h := ((C2_write_cache (fun _ => (1, some "boom"))
    ⟨some [1, 2, 3], 4, true⟩ [1, 2, 3] [9] rfl).1 (by decide)).2 "boom" rfl
  simpa using h

/-- Claim C7, counterexample: with the mutex disabled, Build performs
no capacity clamping and allocates no cache: capacity 500 stays 500
(below 1024) and even capacity 2048 yields a sink without a cache,
contradicting the claim that the clamping and cache invariant hold
including when the lock is disabled by configuration. -/
theorem C7_build_counterexample :
    (StandardSyncerOption.build ⟨500, true⟩).capacity = 500 ∧
    (StandardSyncerOption.build ⟨500, true⟩).cache = none ∧
    (StandardSyncerOption.build ⟨2048, true⟩).cache = none := by
  decide

/-- Claim C7, amended: when the mutex is enabled, capacity 0 yields a
sink with no cache, a nonzero capacity below 1024 is clamped to 1024,
and a capacity of at least 1024 is kept, with the cache present; when
the mutex is disabled, the cache is always absent and the capacity is
left as given. In every case a present cache implies capacity at
least 1024. -/
theorem C7_build_clamp (o : StandardSyncerOption) :
    (o.disableMutex = false →
      (o.cacheCapacity = 0 →
        (o.build).cache = none ∧ (o.build).capacity = 0) ∧
      (0 < o.cacheCapacity → o.cacheCapacity < 1024 →
        (o.build).cache = some [] ∧ (o.build).capacity = 1024) ∧
      (1024 ≤ o.cacheCapacity →
        (o.build).cache = some [] ∧ (o.build).capacity = o.cacheCapacity)) ∧
    (o.disableMutex = true →
      (o.build).cache = none ∧ (o.build).capacity = o.cacheCapacity) ∧
    ((o.build).cache.isSome = true → 1024 ≤ (o.build).capacity) := by
  refine ⟨?_, ?_, ?_⟩
  · intro hd
    refine ⟨fun h0 => ?_, fun h1 h2 => ?_, fun h1 => ?_⟩
    · simp [StandardSyncerOption.build, hd, h0]
    · have hcl : o.cacheCapacity < 1024 ∧ o.cacheCapacity > 0 := ⟨h2, h1⟩
      simp [StandardSyncerOption.build, hd, hcl]
    · have hcl : ¬(o.cacheCapacity < 1024 ∧ o.cacheCapacity > 0) := by omega
      have hpos : o.cacheCapacity > 0 := by omega
      simp only [StandardSyncerOption.build, hd, Bool.not_false, if_true,
        if_neg hcl, if_pos hpos]
      constructor <;> trivial
  · intro hd
    simp [StandardSyncerOption.build, hd]
  · intro h
    by_cases hd : o.disableMutex
    · simp [StandardSyncerOption.build, hd] at h
    · by_cases hcl : o.cacheCapacity < 1024 ∧ o.cacheCapacity > 0
      · simp [StandardSyncerOption.build, hd, hcl]
      · simp only [StandardSyncerOption.build, hd, Bool.not_eq_true,
          Bool.not_false, if_true, if_neg hcl] at h ⊢
        by_cases hpos : o.cacheCapacity > 0
        · omega
        · rw [if_neg hpos] at h
          simp at h

/-- Claim C7, witness for the amended theorem: with the mutex enabled
a requested capacity of 500 is clamped to 1024 and the cache is
allocated. -/
theorem C7_build_clamp_witness :
    (StandardSyncerOption.build ⟨500, false⟩).cache = some [] ∧
    (StandardSyncerOption.build ⟨500, false⟩).capacity = 1024 :=
  ((C7_build_clamp ⟨500, false⟩).1 rfl).2.1 (by decide) (by decide)

/-- Helper: shifting the additive constant of a map over a range
through a successor. -/
theorem range_map_shift (n i : Nat) :
    List.map (fun k => k + (i + 1)) (List.range n) =
      List.map ((fun k => k + i) ∘ Nat.succ) (List.range n) := by
  apply List.map_congr_left
  intro a _
  simp only [Function.comp_apply]
  omega

/-- Helper: if every hook of the prefix accepts the evolving entry
and the next hook rejects it, the hook chain stops at that hook,
reporting its error, having invoked exactly the prefix and the
failing hook. -/
theorem runHooks_first_error (pre : List HookFn) (h : HookFn)
    (post : List HookFn) (e : Entry) (i : Nat) (err : GoErr)
    (hok : (runHooks pre e i).2.1 = none)
    (herr : (h (runHooks pre e i).1).2 = some err) :
    (runHooks (pre ++ h :: post) e i).2.1 = some err ∧
    (runHooks (pre ++ h :: post) e i).2.2 =
      (List.range (pre.length + 1)).map (fun k => k + i) := by
  induction pre generalizing e i with
  | nil =>
    simp only [runHooks] at herr
    simp only [List.nil_append, runHooks, herr]
    refine ⟨by simp, by simp [List.range_succ]⟩
  | cons p rest ih =>
    simp only [runHooks, List.append_eq] at hok herr ⊢
    cases hpe : (p e).2 with
    | some perr =>
      rw [hpe] at hok
      simp at hok
    | none =>
      rw [hpe] at hok herr
      dsimp only at hok herr ⊢
      have hrec := ih (p e).1 (i + 1) hok herr
      refine ⟨hrec.1, ?_⟩
      rw [hrec.2]
      nth_rewrite 2 [List.range_succ_eq_map]
      simp only [List.map_cons, List.map_map, Nat.zero_add]
      rw [range_map_shift, List.length_cons]

/-- Claim C3: when some hook returns an error, Logger.output stops at
the first such hook: exactly the hooks up to and including it are
invoked, no exporter is invoked, the pooled entry is released, and
output returns exactly that error. -/
theorem C3_hook_abort (l : Logger) (level : Level) (message : Message)
    (now : Int) (poolEntry : Entry) (caller : EntrySourceLocation)
    (pre : List HookFn) (h : HookFn) (post : List HookFn) (err : GoErr)
    (hhooks : l.hooks = pre ++ h :: post)
    (hlev : Level.enabled l.level level = true)
    (hexp : l.exporters.length ≠ 0)
    (hsam : ∀ f, l.sampler = some f →
      f (l.populate level message now poolEntry) = true)
    (hok : (runHooks pre
      (l.entryAtHookStage level message now poolEntry caller) 0).2.1 = none)
    (herr : (h (runHooks pre
      (l.entryAtHookStage level message now poolEntry caller) 0).1).2
      = some err) :
    l.output level message now poolEntry caller =
      ⟨some err, List.range (pre.length + 1), [], true,
        some (l.entryAtHookStage level message now poolEntry caller)⟩ := by
  have habort := runHooks_first_error pre h post
    (l.entryAtHookStage level message now poolEntry caller) 0 err hok herr
  unfold Logger.output
  rw [hlev]
  simp only [Bool.not_true, Bool.false_eq_true, if_false]
  rw [if_neg hexp]
  have hsample : (match l.sampler with
      | some f => !(f (l.populate level message now poolEntry))
      | none => false) = false := by
    cases hs : l.sampler with
    | none => rfl
    | some f => simp [hsam f hs]
  rw [hsample]
  simp only [Bool.false_eq_true, if_false]
  rw [hhooks, habort.1]
  dsimp only
  rw [habort.2]
  simp

/-- Claim C3, witness: a logger whose second hook fails invokes hooks
0 and 1 only, invokes no exporter, releases the entry and returns the
hook error. -/
theorem C3_hook_abort_witness :
    witLogger.output 1 ⟨none⟩ 5 dirtyEntry ⟨0, "", 0, false⟩ =
      ⟨some "hookfail", [0, 1], [], true,
        some (witLogger.entryAtHookStage 1 ⟨none⟩ 5 dirtyEntry
          ⟨0, "", 0, false⟩)⟩ := by
  have h := C3_hook_abort witLogger 1 ⟨none⟩ 5 dirtyEntry ⟨0, "", 0, false⟩
    [okHook] failingHook [okHook] "hookfail" rfl rfl
    (by simp [witLogger]) (by intro f hf; simp [witLogger] at hf) rfl rfl
  simpa using h

/-- Claim C4: in every reachable reconnect state at most one
reconnect task is in flight, an in-flight task implies the
disconnected flag is set, and the only transition that flips the flag
back from true to false is the termination of an in-flight reconnect
task (its successful dial). -/
theorem C4_single_reconnect :
    (∀ s : NetState, NetReachable s →
      s.inflight ≤ 1 ∧ (s.inflight = 1 → s.disconnected = true)) ∧
    (∀ s s' : NetState, NetStep s s' →
      s.disconnected = true → s'.disconnected = false →
      s.inflight = s'.inflight + 1) := by
  constructor
  · intro s h
    induction h with
    | refl => exact ⟨by decide, fun h => absurd h (by decide)⟩
    | tail hab step ih =>
      rename_i b c
      cases step with
      | writeFailWin hflag =>
        have h0 : b.inflight = 0 := by
          rcases Nat.lt_or_ge b.inflight 1 with h1 | h1
          · omega
          · have hdt := ih.2 (by omega)
            rw [hflag] at hdt
            cases hdt
        refine ⟨by dsimp only; omega, fun _ => rfl⟩
      | writeFailLose hflag => exact ih
      | reconnectSucc hin =>
        have h1 := ih.1
        exact ⟨by dsimp only; omega,
          fun hcon => absurd hcon (by dsimp only; omega)⟩
      | reconnectCancel hin =>
        have h1 := ih.1
        exact ⟨by dsimp only; omega,
          fun hcon => absurd hcon (by dsimp only; omega)⟩
  · intro s s' step hd hd'
    cases step with
    | writeFailWin hflag => simp at hd'
    | writeFailLose hflag => rw [hd] at hd'; simp at hd'
    | reconnectSucc hin => dsimp only; omega
    | reconnectCancel hin =>
      have hdt : s.disconnected = false := hd'
      rw [hd] at hdt
      cases hdt

/-- Claim C4, witness: the state reached by one winning write-failure
CAS has one task in flight and the flag set. -/
theorem C4_single_reconnect_witness :
    (⟨true, 1, 1⟩ : NetState).inflight ≤ 1 ∧
    ((⟨true, 1, 1⟩ : NetState).inflight = 1 →
      (⟨true, 1, 1⟩ : NetState).disconnected = true) :=
  C4_single_reconnect.1 ⟨true, 1, 1⟩
    (Relation.ReflTransGen.single (NetStep.writeFailWin ⟨false, 0, 0⟩ rfl))

/-- Helper: the entry value recorded as observed by the hook stage is
either absent (the call returned before the hooks ran) or exactly the
populated entry at the hook stage. -/
theorem output_entryAtHooks (l : Logger) (level : Level)
    (message : Message) (now : Int) (poolEntry : Entry)
    (caller : EntrySourceLocation) :
    (l.output level message now poolEntry caller).entryAtHooks = none ∨
    (l.output level message now poolEntry caller).entryAtHooks =
      some (l.entryAtHookStage level message now poolEntry caller) := by
  unfold Logger.output
  split
  · exact Or.inl rfl
  split
  · exact Or.inl rfl
  split
  · dsimp only
    split
    · exact Or.inl rfl
    · split
      · exact Or.inr rfl
      · exact Or.inr rfl
  · dsimp only
    simp only [Bool.false_eq_true, if_false]
    split
    · exact Or.inr rfl
    · exact Or.inr rfl

/-- Claim C10: with addSource disabled, output overwrites exactly the
Time, Level, Message, Name and Labels fields of the pooled entry; the
SourceLocation field is left unchanged, so the entry value the hook
and exporter stage observes carries whatever SourceLocation the
reused pooled entry last held. -/
theorem C10_source_location (l : Logger) (level : Level)
    (message : Message) (now : Int) (poolEntry : Entry)
    (caller : EntrySourceLocation) (hsrc : l.addSource = false) :
    l.entryAtHookStage level message now poolEntry caller =
      { time := now, level := level, message := message,
        sourceLocation := poolEntry.sourceLocation,
        name := l.name, labels := l.labels } ∧
    (∀ e : Entry,
      (l.output level message now poolEntry caller).entryAtHooks = some e →
      e.sourceLocation = poolEntry.sourceLocation) := by
  have hstage : l.entryAtHookStage level message now poolEntry caller =
      { time := now, level := level, message := message,
        sourceLocation := poolEntry.sourceLocation,
        name := l.name, labels := l.labels } := by
    unfold Logger.entryAtHookStage Logger.populate
    rw [hsrc]
    simp
  refine ⟨hstage, ?_⟩
  intro e he
  rcases output_entryAtHooks l level message now poolEntry caller with h0 | h0
  · rw [h0] at he
    cases he
  · rw [h0] at he
    have he2 : l.entryAtHookStage level message now poolEntry caller = e :=
      Option.some.inj he
    rw [← he2, hstage]

/-- Claim C10, witness: with source capture disabled, the entry
observed by the hooks of the concrete logger keeps the stale source
location of the dirty pooled entry. -/
theorem C10_source_location_witness :
    witLogger.entryAtHookStage 1 ⟨none⟩ 5 dirtyEntry ⟨0, "", 0, false⟩ =
      { time := 5, level := 1, message := ⟨none⟩,
        sourceLocation := ⟨99, "old.go", 7, true⟩,
        name := "w", labels := ["k=v"] } := by
  have h := (C10_source_location witLogger 1 ⟨none⟩ 5 dirtyEntry
    ⟨0, "", 0, false⟩ rfl).1
  simpa [witLogger, dirtyEntry] using h

end Santa
